import Mathlib

/-!
Verification of the clash-speedtest Speed Measurement Engine.

This file shallowly embeds the logic of `speedtester/speedtester.go` and
`main.go` in Lean 4 and proves the specification claims about it.

Modelling conventions:
- Go `time.Duration` (int64 nanoseconds, always non-negative here) is `ℕ`.
- Go `int64` byte counts (always non-negative: `io.Copy` results) are `ℕ`.
- Go `float64` quantities (speeds, packet loss percentages, thresholds) are
  modelled exactly over `ℚ`; `duration.Seconds()` is division by `10^9`.
- `math.Sqrt` followed by truncation to `time.Duration` is modelled by
  `Nat.sqrt` of the floor of the rational variance (no claim depends on the
  exact value of a non-zero jitter).
- Network I/O is modelled by an oracle environment (`ProbeEnv`): each probe
  the code can issue has its outcome supplied by the environment, and
  `testProxy` additionally returns the trace of probes it actually issued,
  so that short-circuit claims ("no further probing") are statable.
-/

namespace ClashSpeedtest

/-- Go struct `latencyResult` (speedtester.go): average latency, jitter and
packet-loss percentage. -/
structure latencyResult where
  avgLatency : ℕ
  jitter : ℕ
  packetLoss : ℚ
deriving DecidableEq

/-- Go struct `downloadResult` (speedtester.go): bytes transferred and
elapsed duration of one transfer probe. -/
structure downloadResult where
  bytes : ℕ
  duration : ℕ
deriving DecidableEq

/-- Go func `calculateLatencyStats` (speedtester.go lines 510-536):
packet loss is `failedPings / 6 * 100`; with no successful latency sample the
average and jitter stay zero; otherwise average is the integer division of the
total by the count (Go `time.Duration` division) and jitter is the square root
of the mean squared deviation from the average. -/
def calculateLatencyStats (latencies : List ℕ) (failedPings : ℕ) : latencyResult :=
  if latencies.isEmpty then
    { avgLatency := 0, jitter := 0, packetLoss := (failedPings : ℚ) / 6 * 100 }
  else
    let avg := latencies.sum / latencies.length
    let variance : ℚ :=
      ((latencies.map (fun l => ((l : ℚ) - (avg : ℚ)) ^ 2)).sum) / (latencies.length : ℚ)
    { avgLatency := avg
      jitter := Nat.sqrt (Int.toNat ⌊variance⌋)
      packetLoss := (failedPings : ℚ) / 6 * 100 }

/-- Go func `testLatency` (speedtester.go lines 352-375): issues exactly 6
sequential pings; a ping either succeeds with a measured duration (`some d`)
or fails (`none`, covering both connection errors and non-200 statuses), and
the statistics are computed from the successful durations and the count of
failed pings. -/
def testLatency (pings : Fin 6 → Option ℕ) : latencyResult :=
  calculateLatencyStats
    ((List.finRange 6).filterMap pings)
    ((List.finRange 6).countP (fun i => (pings i).isNone))

/-- One step of the result-collection loops of `testProxy`
(speedtester.go lines 314-330): a `nil` chunk outcome is skipped, a
successful one contributes its bytes, its duration and one to the success
count. -/
def aggStep (acc : ℕ × ℕ × ℕ) (o : Option downloadResult) : ℕ × ℕ × ℕ :=
  match o with
  | none => acc
  | some dr => (acc.1 + dr.bytes, acc.2.1 + dr.duration, acc.2.2 + 1)

/-- The collection loops of `testProxy`: fold the chunk outcomes of one
transfer direction into (totalBytes, totalTime, successCount). -/
def aggregateOutcomes (outcomes : List (Option downloadResult)) : ℕ × ℕ × ℕ :=
  outcomes.foldl aggStep (0, 0, 0)

/-- The successful chunk outcomes of one direction. -/
def successTransfers (outcomes : List (Option downloadResult)) : List downloadResult :=
  outcomes.filterMap id

/-- Go `float64(bytes) / duration.Seconds()`: bytes per second from a byte
count and a duration in nanoseconds, over `ℚ`. -/
def speedOf (bytes : ℕ) (durationNs : ℕ) : ℚ :=
  (bytes : ℚ) / ((durationNs : ℚ) / 1000000000)

/-- The per-direction fields of a `Result`: size, (average) time, speed. -/
structure dirStats where
  size : ℚ
  time : ℕ
  speed : ℚ
deriving DecidableEq

/-- Go `testProxy` lines 332-341, for one transfer direction: when at least
one chunk succeeded, the recorded time is the integer division of the summed
durations by the success count and the speed is total bytes over that average
duration; with zero successes all three fields stay zero. -/
def finalizeDirection (outcomes : List (Option downloadResult)) : dirStats :=
  let agg := aggregateOutcomes outcomes
  if 0 < agg.2.2 then
    let dt := agg.2.1 / agg.2.2
    { size := (agg.1 : ℚ), time := dt, speed := speedOf agg.1 dt }
  else { size := 0, time := 0, speed := 0 }

/-- The chunk outcomes of the spec example: {success(1000B,100ms),
success(2000B,200ms), failure, success(500B,50ms)}. -/
def c1SampleOutcomes : List (Option downloadResult) :=
  [some { bytes := 1000, duration := 100000000 },
   some { bytes := 2000, duration := 200000000 },
   none,
   some { bytes := 500, duration := 50000000 }]

/-- Go struct `Result` (speedtester.go lines 160-176), restricted to the
measurement fields (the identity fields ProxyName, ProxyType and ProxyConfig
are echoed metadata no claim depends on). Speeds are bytes per second. -/
structure Result where
  latency : ℕ
  jitter : ℕ
  packetLoss : ℚ
  downloadSize : ℚ
  downloadTime : ℕ
  downloadSpeed : ℚ
  uploadSize : ℚ
  uploadTime : ℕ
  uploadSpeed : ℚ
  extraURLConnectivity : Bool
  extraURLOpenSpeed : ℚ
  extraDownloadSpeed : ℚ
deriving DecidableEq

/-- The classification flags of main.go (lines 32-39): max-latency in
nanoseconds; the speed thresholds in MB/s as the flag help texts state; the
raw extra-connect-url and extra-download-url flag strings, empty when the
corresponding auxiliary probing is not configured. -/
structure Thresholds where
  maxLatency : ℕ
  minSpeed : ℚ
  openSpeedThreshold : ℚ
  goodOpenSpeedThreshold : ℚ
  goodDownloadSpeedThreshold : ℚ
  extraConnectURL : String
  extraDownloadURL : String
deriving DecidableEq

/-- Go func `isProxyUsable` (main.go lines 115-120), term for term: the MB/s
flags are scaled by 1024*1024 before comparison with the bytes-per-second
speeds. -/
def isProxyUsable (t : Thresholds) (r : Result) : Bool :=
  (decide (r.latency ≤ t.maxLatency) || decide (t.maxLatency = 0)) &&
  r.extraURLConnectivity &&
  (decide (t.openSpeedThreshold * 1024 * 1024 ≤ r.extraURLOpenSpeed) ||
    decide (t.extraConnectURL = "")) &&
  decide (t.minSpeed * 1024 * 1024 ≤ r.downloadSpeed) &&
  (decide (t.minSpeed * 1024 * 1024 ≤ r.extraDownloadSpeed) ||
    decide (t.extraDownloadURL = ""))

/-- Go func `isProxyGood` (main.go lines 123-127), term for term: note that
unlike `isProxyUsable` the three good-threshold comparisons do NOT scale the
MB/s flag values by 1024*1024. -/
def isProxyGood (t : Thresholds) (r : Result) : Bool :=
  isProxyUsable t r &&
  decide (t.goodDownloadSpeedThreshold ≤ r.downloadSpeed) &&
  (decide (t.goodOpenSpeedThreshold ≤ r.extraURLOpenSpeed) ||
    decide (t.extraConnectURL = "")) &&
  (decide (t.goodDownloadSpeedThreshold ≤ r.extraDownloadSpeed) ||
    decide (t.extraDownloadURL = ""))

/-- The `usable` predicate as the spec words it (section 4.6): latency within
the max-latency threshold (or that threshold disabled), auxiliary
connectivity, open speed at least the open-speed threshold (or no auxiliary
URLs configured), download speed at least the min-speed threshold, and
auxiliary download speed at least the min-speed threshold (or no auxiliary
download URL configured) — all thresholds applied to the bytes-per-second
speeds in a consistent unit, i.e. the MB/s flags scaled by 1024*1024. -/
def usableSpec (t : Thresholds) (r : Result) : Prop :=
  (r.latency ≤ t.maxLatency ∨ t.maxLatency = 0) ∧
  r.extraURLConnectivity = true ∧
  (t.openSpeedThreshold * 1024 * 1024 ≤ r.extraURLOpenSpeed ∨ t.extraConnectURL = "") ∧
  t.minSpeed * 1024 * 1024 ≤ r.downloadSpeed ∧
  (t.minSpeed * 1024 * 1024 ≤ r.extraDownloadSpeed ∨ t.extraDownloadURL = "")

/-- The `good` predicate as claim C5 words it: usable, download speed at
least the good-download threshold, open speed at least the good-open
threshold (or no auxiliary URLs), auxiliary download speed at least the
good-download threshold (or not configured) — with all speed comparisons in
the same unit as in `usable`, i.e. the MB/s thresholds scaled by 1024*1024
before comparison with the bytes-per-second speeds. -/
def goodSpecClaim (t : Thresholds) (r : Result) : Prop :=
  usableSpec t r ∧
  t.goodDownloadSpeedThreshold * 1024 * 1024 ≤ r.downloadSpeed ∧
  (t.goodOpenSpeedThreshold * 1024 * 1024 ≤ r.extraURLOpenSpeed ∨ t.extraConnectURL = "") ∧
  (t.goodDownloadSpeedThreshold * 1024 * 1024 ≤ r.extraDownloadSpeed ∨ t.extraDownloadURL = "")

/-- The default flag values of main.go: max-latency 800ms, min-speed 0.1,
open-speed-threshold 0.1, good-open-speed-threshold 0.5,
good-download-speed-threshold 0.5, no auxiliary URLs. -/
def defaultThresholds : Thresholds :=
  { maxLatency := 800000000
    minSpeed := 0.1
    openSpeedThreshold := 0.1
    goodOpenSpeedThreshold := 0.5
    goodDownloadSpeedThreshold := 0.5
    extraConnectURL := ""
    extraDownloadURL := "" }

/-- A proxy measuring 200000 bytes/s (about 0.19 MB/s) of download speed,
within latency bounds and with auxiliary connectivity. -/
def slowUsableResult : Result :=
  { latency := 100000000, jitter := 0, packetLoss := 0
    downloadSize := 200000, downloadTime := 1000000000, downloadSpeed := 200000
    uploadSize := 0, uploadTime := 0, uploadSpeed := 0
    extraURLConnectivity := true, extraURLOpenSpeed := 0, extraDownloadSpeed := 0 }

/-- A proxy measuring 8 MB/s of download speed, within latency bounds and
with auxiliary connectivity: good under the default thresholds. -/
def fastResult : Result :=
  { latency := 50000000, jitter := 0, packetLoss := 0
    downloadSize := 8388608, downloadTime := 1000000000, downloadSpeed := 8388608
    uploadSize := 0, uploadTime := 0, uploadSpeed := 0
    extraURLConnectivity := true, extraURLOpenSpeed := 0, extraDownloadSpeed := 0 }

/-- The comparator passed to `sort.Slice` in main.go lines 101-106: when two
results agree on goodness, the one with strictly greater download speed comes
first; otherwise the good one comes first. -/
def resultLess (t : Thresholds) (a b : Result) : Bool :=
  if isProxyGood t a = isProxyGood t b then decide (b.downloadSpeed < a.downloadSpeed)
  else isProxyGood t a

/-- A good result with download speed 5 MB/s. -/
def rankGoodFast : Result :=
  { latency := 50000000, jitter := 0, packetLoss := 0
    downloadSize := 5242880, downloadTime := 1000000000, downloadSpeed := 5242880
    uploadSize := 0, uploadTime := 0, uploadSpeed := 0
    extraURLConnectivity := true, extraURLOpenSpeed := 0, extraDownloadSpeed := 0 }

/-- A good result with download speed 3 MB/s. -/
def rankGoodSlow : Result :=
  { latency := 50000000, jitter := 0, packetLoss := 0
    downloadSize := 3145728, downloadTime := 1000000000, downloadSpeed := 3145728
    uploadSize := 0, uploadTime := 0, uploadSpeed := 0
    extraURLConnectivity := true, extraURLOpenSpeed := 0, extraDownloadSpeed := 0 }

/-- A non-good result (no auxiliary connectivity) with download speed
100 MB/s. -/
def rankBadFastest : Result :=
  { latency := 50000000, jitter := 0, packetLoss := 0
    downloadSize := 104857600, downloadTime := 1000000000, downloadSpeed := 104857600
    uploadSize := 0, uploadTime := 0, uploadSpeed := 0
    extraURLConnectivity := false, extraURLOpenSpeed := 0, extraDownloadSpeed := 0 }

/-- Go struct `Config` (speedtester.go lines 26-36), restricted to the fields
the engine logic reads (ConfigPaths and FilterRegex only drive loading and
naming). Sizes and the concurrency degree are Go `int`, hence `ℤ`. -/
structure Config where
  serverURL : String
  downloadSize : ℤ
  uploadSize : ℤ
  timeoutNs : ℕ
  concurrent : ℤ
  extraConnectURL : List String
  extraDownloadURL : String

/-- Go func `New` (speedtester.go lines 42-55): non-positive Concurrent,
DownloadSize and UploadSize are replaced by 1, 100 MiB and 10 MiB. -/
def New (config : Config) : Config :=
  { config with
    concurrent := if config.concurrent ≤ 0 then 1 else config.concurrent
    downloadSize := if config.downloadSize ≤ 0 then 100 * 1024 * 1024 else config.downloadSize
    uploadSize := if config.uploadSize ≤ 0 then 10 * 1024 * 1024 else config.uploadSize }

/-- One network request issued by `testProxy`, recorded in order of issue:
a primary latency ping, a ping of the auxiliary URL at a given list index,
the auxiliary download probe, or a throughput chunk probe (whose recorded
chunk size is the byte count put in the request URL or body). -/
inductive ProbeEvent where
  | primaryPing (i : ℕ)
  | auxPing (urlIdx : ℕ) (url : String) (i : ℕ)
  | auxDownload (url : String)
  | downloadChunk (i : ℕ) (chunkSize : ℤ)
  | uploadChunk (i : ℕ) (chunkSize : ℤ)
deriving DecidableEq

/-- The outcome of one successful auxiliary ping (testExtraLatencyAndSpeed
loop body, speedtester.go lines 392-414): the latency measured before the
body is read, the body bytes copied, and the elapsed time measured after the
body copy (which is what the open-speed totals accumulate). -/
structure extraPingOutcome where
  latency : ℕ
  bytes : ℕ
  openDuration : ℕ
deriving DecidableEq

/-- The network oracle for one proxy: the outcome of every probe the code
could issue. `extraPing idx i` is ping `i` of the auxiliary URL at list
index `idx`; `none` is a failed request (connection error or non-200
status). -/
structure ProbeEnv where
  primaryPing : Fin 6 → Option ℕ
  extraPing : ℕ → Fin 6 → Option extraPingOutcome
  extraDownload : Option downloadResult
  downloadChunk : ℕ → Option downloadResult
  uploadChunk : ℕ → Option downloadResult

/-- The successful latencies of the 6 pings of one auxiliary URL. -/
def auxLatencies (p : Fin 6 → Option extraPingOutcome) : List ℕ :=
  (List.finRange 6).filterMap (fun i => (p i).map extraPingOutcome.latency)

/-- The failed-ping count of one auxiliary URL. -/
def auxFailed (p : Fin 6 → Option extraPingOutcome) : ℕ :=
  (List.finRange 6).countP (fun i => (p i).isNone)

/-- The body bytes one auxiliary URL contributes to the open-speed totals. -/
def auxBytes (p : Fin 6 → Option extraPingOutcome) : ℕ :=
  (((List.finRange 6).filterMap (fun i => p i)).map extraPingOutcome.bytes).sum

/-- The elapsed time one auxiliary URL contributes to the open-speed
totals. -/
def auxDuration (p : Fin 6 → Option extraPingOutcome) : ℕ :=
  (((List.finRange 6).filterMap (fun i => p i)).map extraPingOutcome.openDuration).sum

/-- The latency statistics the code computes for one auxiliary URL. -/
def auxStats (p : Fin 6 → Option extraPingOutcome) : latencyResult :=
  calculateLatencyStats (auxLatencies p) (auxFailed p)

/-- The per-URL loop of `testExtraLatencyAndSpeed` (speedtester.go lines
389-420): each URL in turn is pinged 6 times, its latency statistics are
recorded, and if they show 100% packet loss the loop returns immediately
with `none` in place of the open-speed totals (the short circuit); otherwise
the bytes and durations are accumulated into the totals. The third component
is the trace of requests issued. -/
def extraLoop (env : ProbeEnv) :
    List String → ℕ →
    List (String × latencyResult) × Option (ℕ × ℕ) × List ProbeEvent
  | [], _ => ([], some (0, 0), [])
  | u :: rest, idx =>
    let evts := (List.finRange 6).map (fun i => ProbeEvent.auxPing idx u i.val)
    let stats := auxStats (env.extraPing idx)
    if stats.packetLoss = 100 then ([(u, stats)], none, evts)
    else
      let res := extraLoop env rest (idx + 1)
      ((u, stats) :: res.1,
       res.2.1.map (fun tot =>
         (auxBytes (env.extraPing idx) + tot.1, auxDuration (env.extraPing idx) + tot.2)),
       evts ++ res.2.2)

/-- Go func `testExtraLatencyAndSpeed` (speedtester.go lines 377-434): run
the per-URL loop; on short circuit return with no open-speed result and no
auxiliary download probe; otherwise derive the open-speed result from the
totals when any bytes were read, and issue the auxiliary download probe when
an auxiliary download URL is configured. -/
def testExtraLatencyAndSpeed (cfg : Config) (env : ProbeEnv) :
    List (String × latencyResult) × Option downloadResult × Option downloadResult ×
      List ProbeEvent :=
  let res := extraLoop env cfg.extraConnectURL 0
  match res.2.1 with
  | none => (res.1, none, none, res.2.2)
  | some tot =>
    let extraOpenRes : Option downloadResult :=
      if 0 < tot.1 then some { bytes := tot.1, duration := tot.2 } else none
    if cfg.extraDownloadURL = "" then (res.1, extraOpenRes, none, res.2.2)
    else (res.1, extraOpenRes, env.extraDownload,
      res.2.2 ++ [ProbeEvent.auxDownload cfg.extraDownloadURL])

/-- Go func `existConnectivityProblem` (speedtester.go lines 233-243): an
empty latency-result map is no problem; otherwise any entry with 100% packet
loss is. -/
def existConnectivityProblem (m : List (String × latencyResult)) : Bool :=
  if m.isEmpty then false
  else m.any (fun data => decide (data.2.packetLoss = 100))

/-- Go func `testProxy` (speedtester.go lines 245-344), over the probe
oracle, also returning the trace of requests issued. First the 6 primary
latency pings; on 100% packet loss return immediately with only the latency
fields set. Then the auxiliary phase; on a connectivity problem return with
ExtraURLConnectivity false and nothing else set. Otherwise record the
open-speed and auxiliary download speeds, run the Concurrent download chunk
probes and then the Concurrent upload chunk probes, and aggregate each
direction with `finalizeDirection`. -/
def testProxy (cfg : Config) (env : ProbeEnv) : Result × List ProbeEvent :=
  let primEvts := (List.finRange 6).map (fun i => ProbeEvent.primaryPing i.val)
  let lat := testLatency env.primaryPing
  let r0 : Result :=
    { latency := lat.avgLatency, jitter := lat.jitter, packetLoss := lat.packetLoss
      downloadSize := 0, downloadTime := 0, downloadSpeed := 0
      uploadSize := 0, uploadTime := 0, uploadSpeed := 0
      extraURLConnectivity := false, extraURLOpenSpeed := 0, extraDownloadSpeed := 0 }
  if lat.packetLoss = 100 then (r0, primEvts)
  else
    let ex := testExtraLatencyAndSpeed cfg env
    if existConnectivityProblem ex.1 then
      ({ r0 with extraURLConnectivity := false }, primEvts ++ ex.2.2.2)
    else
      let r1 : Result :=
        { r0 with
          extraURLConnectivity := true
          extraURLOpenSpeed :=
            match ex.2.1 with
            | some dr => speedOf dr.bytes dr.duration
            | none => 0
          extraDownloadSpeed :=
            match ex.2.2.1 with
            | some dr => speedOf dr.bytes dr.duration
            | none => 0 }
      let downloadChunkSize := cfg.downloadSize / cfg.concurrent
      let uploadChunkSize := cfg.uploadSize / cfg.concurrent
      let chunkCount := cfg.concurrent.toNat
      let dlStats := finalizeDirection ((List.range chunkCount).map env.downloadChunk)
      let upStats := finalizeDirection ((List.range chunkCount).map env.uploadChunk)
      ({ r1 with
         downloadSize := dlStats.size, downloadTime := dlStats.time
         downloadSpeed := dlStats.speed
         uploadSize := upStats.size, uploadTime := upStats.time
         uploadSpeed := upStats.speed },
       primEvts ++ ex.2.2.2
         ++ (List.range chunkCount).map (fun i => ProbeEvent.downloadChunk i downloadChunkSize)
         ++ (List.range chunkCount).map (fun i => ProbeEvent.uploadChunk i uploadChunkSize))

/-- An environment in which every primary ping fails and every other probe
would succeed if it were issued. -/
def envAllPrimaryFail : ProbeEnv :=
  { primaryPing := fun _ => none
    extraPing := fun _ _ => some { latency := 1000000, bytes := 2048, openDuration := 2000000 }
    extraDownload := some { bytes := 1048576, duration := 1000000000 }
    downloadChunk := fun _ => some { bytes := 1048576, duration := 1000000000 }
    uploadChunk := fun _ => some { bytes := 1048576, duration := 1000000000 } }

/-- A configuration with auxiliary URLs and an auxiliary download URL
configured, so that the aborted probes are observable. -/
def cfgWithExtras : Config :=
  { serverURL := "https://speed.cloudflare.com"
    downloadSize := 52428800, uploadSize := 20971520
    timeoutNs := 5000000000, concurrent := 4
    extraConnectURL := ["https://a.example", "https://b.example", "https://c.example"]
    extraDownloadURL := "https://drive.example/file" }

/-- An environment in which the primary pings succeed, the auxiliary URL at
list position 1 is completely unreachable, and every other probe would
succeed if it were issued. -/
def envSecondAuxDead : ProbeEnv :=
  { primaryPing := fun _ => some 10000000
    extraPing := fun idx =>
      if idx = 1 then (fun _ => none)
      else (fun _ => some { latency := 1000000, bytes := 2048, openDuration := 2000000 })
    extraDownload := some { bytes := 1048576, duration := 1000000000 }
    downloadChunk := fun _ => some { bytes := 1048576, duration := 1000000000 }
    uploadChunk := fun _ => some { bytes := 1048576, duration := 1000000000 } }

/-- A configuration with no auxiliary URLs and no auxiliary download URL. -/
def cfgNoExtras : Config :=
  { serverURL := "https://speed.cloudflare.com"
    downloadSize := 52428800, uploadSize := 20971520
    timeoutNs := 5000000000, concurrent := 4
    extraConnectURL := [], extraDownloadURL := "" }

/-- An environment in which the primary pings succeed and one download chunk
probe out of four fails. -/
def envAllGood : ProbeEnv :=
  { primaryPing := fun _ => some 10000000
    extraPing := fun _ _ => some { latency := 1000000, bytes := 2048, openDuration := 2000000 }
    extraDownload := some { bytes := 1048576, duration := 1000000000 }
    downloadChunk := fun i =>
      if i = 2 then none else some { bytes := 13107200, duration := 2000000000 }
    uploadChunk := fun _ => some { bytes := 5242880, duration := 2000000000 } }

/-- The packet-loss field never depends on the successful samples. -/
theorem calculateLatencyStats_packetLoss (latencies : List ℕ) (failedPings : ℕ) :
    (calculateLatencyStats latencies failedPings).packetLoss =
      (failedPings : ℚ) / 6 * 100 := by
  unfold calculateLatencyStats
  split <;> rfl

/-- C7: For every latency-probe run, the packet-loss percentage equals
failedSamples / totalSamples × 100 with the total fixed at the configured
sample count of 6, and for every possible number of failed samples out of 6
the percentage is never negative and never exceeds 100. -/
theorem c7_packet_loss_formula (pings : Fin 6 → Option ℕ) :
    (testLatency pings).packetLoss =
      (((List.finRange 6).countP (fun i => (pings i).isNone) : ℚ) / 6) * 100 ∧
    0 ≤ (testLatency pings).packetLoss ∧
    (testLatency pings).packetLoss ≤ 100 := by
  have hle : (List.finRange 6).countP (fun i => (pings i).isNone) ≤ 6 := by
    have h := List.countP_le_length (p := fun i => (pings i).isNone) (l := List.finRange 6)
    simpa using h
  have hform : (testLatency pings).packetLoss =
      (((List.finRange 6).countP (fun i => (pings i).isNone) : ℚ) / 6) * 100 := by
    unfold testLatency
    rw [calculateLatencyStats_packetLoss]
  refine ⟨hform, ?_, ?_⟩
  · rw [hform]
    positivity
  · rw [hform]
    have hq : (((List.finRange 6).countP (fun i => (pings i).isNone) : ℚ)) ≤ 6 := by
      exact_mod_cast hle
    linarith

/-- C8: With zero successful latency samples the average latency and the
jitter are both zero (no division by zero and no domain error), and both the
average and the jitter are computed only from the successful samples: the
failed-ping count influences nothing but the packet-loss percentage. -/
theorem c8_zero_success_stats (latencies : List ℕ) (failedPings failedPings' : ℕ) :
    (calculateLatencyStats [] failedPings).avgLatency = 0 ∧
    (calculateLatencyStats [] failedPings).jitter = 0 ∧
    (calculateLatencyStats latencies failedPings).avgLatency =
      (calculateLatencyStats latencies failedPings').avgLatency ∧
    (calculateLatencyStats latencies failedPings).jitter =
      (calculateLatencyStats latencies failedPings').jitter := by
  refine ⟨?_, ?_, ?_, ?_⟩
  · simp [calculateLatencyStats]
  · simp [calculateLatencyStats]
  · unfold calculateLatencyStats
    split <;> rfl
  · unfold calculateLatencyStats
    split <;> rfl

theorem aggregateOutcomes_go (outcomes : List (Option downloadResult)) :
    ∀ b t c, outcomes.foldl aggStep (b, t, c) =
      (b + ((successTransfers outcomes).map downloadResult.bytes).sum,
       t + ((successTransfers outcomes).map downloadResult.duration).sum,
       c + (successTransfers outcomes).length) := by
  induction outcomes with
  | nil => intro b t c; simp [successTransfers]
  | cons o rest ih =>
    intro b t c
    cases o with
    | none =>
      rw [List.foldl_cons]
      show rest.foldl aggStep (b, t, c) = _
      rw [ih]
      simp [successTransfers]
    | some dr =>
      rw [List.foldl_cons]
      show rest.foldl aggStep (b + dr.bytes, t + dr.duration, c + 1) = _
      rw [ih]
      simp only [successTransfers, List.filterMap_cons, id]
      refine Prod.ext ?_ (Prod.ext ?_ ?_) <;> simp <;> omega

theorem aggregateOutcomes_eq (outcomes : List (Option downloadResult)) :
    aggregateOutcomes outcomes =
      (((successTransfers outcomes).map downloadResult.bytes).sum,
       ((successTransfers outcomes).map downloadResult.duration).sum,
       (successTransfers outcomes).length) := by
  have h := aggregateOutcomes_go outcomes 0 0 0
  simpa [aggregateOutcomes] using h

/-- C1: For each transfer direction, if at least one of the concurrent chunk
probes succeeds the aggregate speed equals totalBytes / (totalTime /
successCount) — total bytes over the average per-chunk duration, in
nanoseconds converted to seconds — and the aggregation is a function of the
multiset of successful chunk outcomes only; with zero successful chunks the
speed, size and time fields are all zero and the dividing branch is never
taken. The final conjunct ties this to testProxy: whenever the throughput
phase runs, the download and upload fields recorded in the Result are
exactly the finalizeDirection aggregates of the chunk outcomes. -/
theorem c1_aggregate_speed (outcomes : List (Option downloadResult)) :
    ((successTransfers outcomes).length = 0 →
      finalizeDirection outcomes = { size := 0, time := 0, speed := 0 }) ∧
    (0 < (successTransfers outcomes).length →
      finalizeDirection outcomes =
        { size := (((successTransfers outcomes).map downloadResult.bytes).sum : ℚ)
          time := ((successTransfers outcomes).map downloadResult.duration).sum /
            (successTransfers outcomes).length
          speed := (((successTransfers outcomes).map downloadResult.bytes).sum : ℚ) /
            ((((((successTransfers outcomes).map downloadResult.duration).sum /
              (successTransfers outcomes).length : ℕ)) : ℚ) / 1000000000) }) ∧
    (∀ outcomes' : List (Option downloadResult),
      List.Perm (successTransfers outcomes) (successTransfers outcomes') →
      finalizeDirection outcomes' = finalizeDirection outcomes) ∧
    (∀ cfg env, (testLatency env.primaryPing).packetLoss ≠ 100 →
      existConnectivityProblem (testExtraLatencyAndSpeed cfg env).1 = false →
      (testProxy cfg env).1.downloadSpeed =
        (finalizeDirection ((List.range cfg.concurrent.toNat).map env.downloadChunk)).speed ∧
      (testProxy cfg env).1.downloadSize =
        (finalizeDirection ((List.range cfg.concurrent.toNat).map env.downloadChunk)).size ∧
      (testProxy cfg env).1.downloadTime =
        (finalizeDirection ((List.range cfg.concurrent.toNat).map env.downloadChunk)).time ∧
      (testProxy cfg env).1.uploadSpeed =
        (finalizeDirection ((List.range cfg.concurrent.toNat).map env.uploadChunk)).speed ∧
      (testProxy cfg env).1.uploadSize =
        (finalizeDirection ((List.range cfg.concurrent.toNat).map env.uploadChunk)).size ∧
      (testProxy cfg env).1.uploadTime =
        (finalizeDirection ((List.range cfg.concurrent.toNat).map env.uploadChunk)).time) := by
  refine ⟨?_, ?_, ?_, ?_⟩
  · intro h0
    unfold finalizeDirection
    rw [aggregateOutcomes_eq, h0]
    simp
  · intro hpos
    unfold finalizeDirection
    rw [aggregateOutcomes_eq]
    simp only
    rw [if_pos hpos]
    rfl
  · intro outcomes' hperm
    have hb : ((successTransfers outcomes').map downloadResult.bytes).sum =
        ((successTransfers outcomes).map downloadResult.bytes).sum :=
      (hperm.map downloadResult.bytes).symm.sum_eq
    have ht : ((successTransfers outcomes').map downloadResult.duration).sum =
        ((successTransfers outcomes).map downloadResult.duration).sum :=
      (hperm.map downloadResult.duration).symm.sum_eq
    have hl : (successTransfers outcomes').length = (successTransfers outcomes).length :=
      hperm.symm.length_eq
    unfold finalizeDirection
    rw [aggregateOutcomes_eq, aggregateOutcomes_eq, hb, ht, hl]
  · intro cfg env h1 h2
    simp [testProxy, h1, h2]

theorem c1_aggregate_speed_witness :
    0 < (successTransfers c1SampleOutcomes).length ∧
    finalizeDirection c1SampleOutcomes =
      { size := 3500, time := 116666666,
        speed := (1750000000000 : ℚ) / 58333333 } ∧
    (testLatency envAllGood.primaryPing).packetLoss ≠ 100 ∧
    existConnectivityProblem (testExtraLatencyAndSpeed cfgNoExtras envAllGood).1 = false ∧
    (testProxy cfgNoExtras envAllGood).1.downloadSpeed =
      (finalizeDirection ((List.range cfgNoExtras.concurrent.toNat).map envAllGood.downloadChunk)).speed := by
  have h1 : (testLatency envAllGood.primaryPing).packetLoss ≠ 100 := by
    unfold testLatency
    rw [calculateLatencyStats_packetLoss]
    norm_num [envAllGood, List.finRange, List.countP, List.countP.go]
  have h2 : existConnectivityProblem (testExtraLatencyAndSpeed cfgNoExtras envAllGood).1 = false := by
    simp [testExtraLatencyAndSpeed, extraLoop, cfgNoExtras, existConnectivityProblem]
  refine ⟨by decide, ?_, h1, h2, ?_⟩
  · have h := (c1_aggregate_speed c1SampleOutcomes).2.1 (by decide)
    rw [h]
    norm_num [successTransfers, c1SampleOutcomes, dirStats.mk.injEq,
      List.filterMap_cons, List.map_cons, List.sum_cons, List.sum_nil,
      List.length_cons, Function.comp]
  · exact ((c1_aggregate_speed c1SampleOutcomes).2.2.2 cfgNoExtras envAllGood h1 h2).1

/-- C4: `isProxyUsable` holds exactly when the spec predicate `usable` holds:
latency within threshold or threshold disabled, auxiliary connectivity,
open speed and download speeds within their thresholds with the configured
fallbacks for absent auxiliary URLs. -/
theorem c4_usable_iff (t : Thresholds) (r : Result) :
    isProxyUsable t r = true ↔ usableSpec t r := by
  simp only [isProxyUsable, usableSpec, Bool.and_eq_true, Bool.or_eq_true,
    decide_eq_true_eq]
  tauto

/-- C5 (divergence): with the default thresholds, a usable proxy whose
download speed is 200000 bytes/s (0.19 MB/s) is classified good by the code,
because `isProxyGood` compares the bytes-per-second speed against the raw
MB/s flag value 0.5 without the 1024*1024 scaling used everywhere else,
while the claimed unit-consistent `good` predicate rejects it
(200000 < 0.5 * 1024 * 1024 = 524288). -/
theorem c5_good_unit_mismatch :
    isProxyGood defaultThresholds slowUsableResult = true ∧
    usableSpec defaultThresholds slowUsableResult ∧
    ¬ goodSpecClaim defaultThresholds slowUsableResult := by
  refine ⟨?_, ?_, ?_⟩
  · simp only [isProxyGood, isProxyUsable, defaultThresholds, slowUsableResult,
      Bool.and_eq_true, Bool.or_eq_true, decide_eq_true_eq]
    norm_num
  · simp only [usableSpec, defaultThresholds, slowUsableResult]
    norm_num
  · simp only [goodSpecClaim, defaultThresholds, slowUsableResult]
    norm_num

/-- C6: every good result is usable, for every threshold configuration. -/
theorem c6_good_subset_usable (t : Thresholds) (r : Result) :
    isProxyGood t r = true → isProxyUsable t r = true := by
  intro h
  simp only [isProxyGood, Bool.and_eq_true] at h
  exact h.1.1.1

theorem c6_good_subset_usable_witness :
    isProxyGood defaultThresholds fastResult = true ∧
    isProxyUsable defaultThresholds fastResult = true := by
  have hgood : isProxyGood defaultThresholds fastResult = true := by
    simp only [isProxyGood, isProxyUsable, defaultThresholds, fastResult,
      Bool.and_eq_true, Bool.or_eq_true, decide_eq_true_eq]
    norm_num
  exact ⟨hgood, c6_good_subset_usable defaultThresholds fastResult hgood⟩

theorem resultLess_irrefl (t : Thresholds) (a : Result) :
    resultLess t a a = false := by
  simp [resultLess]

theorem resultLess_asymm (t : Thresholds) (a b : Result)
    (h : resultLess t a b = true) : resultLess t b a = false := by
  unfold resultLess at h ⊢
  by_cases hab : isProxyGood t a = isProxyGood t b
  · rw [if_pos hab] at h
    rw [if_pos hab.symm]
    simp only [decide_eq_true_eq] at h
    simp only [decide_eq_false_iff_not, not_lt]
    exact le_of_lt h
  · rw [if_neg hab] at h
    rw [if_neg (fun e => hab e.symm)]
    cases hgb : isProxyGood t b with
    | false => rfl
    | true => exact absurd (h.trans hgb.symm) hab

theorem resultLess_trans (t : Thresholds) (a b c : Result)
    (h1 : resultLess t a b = true) (h2 : resultLess t b c = true) :
    resultLess t a c = true := by
  unfold resultLess at h1 h2 ⊢
  by_cases hab : isProxyGood t a = isProxyGood t b
  · by_cases hbc : isProxyGood t b = isProxyGood t c
    · have hac : isProxyGood t a = isProxyGood t c := hab.trans hbc
      rw [if_pos hab] at h1
      rw [if_pos hbc] at h2
      rw [if_pos hac]
      simp only [decide_eq_true_eq] at h1 h2 ⊢
      exact lt_trans h2 h1
    · have hac : ¬ isProxyGood t a = isProxyGood t c := fun e => hbc (hab.symm.trans e)
      rw [if_neg hbc] at h2
      rw [if_neg hac, hab]
      exact h2
  · rw [if_neg hab] at h1
    by_cases hbc : isProxyGood t b = isProxyGood t c
    · have hac : ¬ isProxyGood t a = isProxyGood t c := fun e => hab (e.trans hbc.symm)
      rw [if_neg hac]
      exact h1
    · rw [if_neg hbc] at h2
      exact absurd (h1.trans h2.symm) hab

theorem resultLess_incomp_iff (t : Thresholds) (a b : Result) :
    (resultLess t a b = false ∧ resultLess t b a = false) ↔
      (isProxyGood t a = isProxyGood t b ∧ a.downloadSpeed = b.downloadSpeed) := by
  unfold resultLess
  by_cases hab : isProxyGood t a = isProxyGood t b
  · rw [if_pos hab, if_pos hab.symm]
    simp only [decide_eq_false_iff_not, not_lt, hab, true_and]
    constructor
    · intro h
      exact le_antisymm h.1 h.2
    · intro h
      exact ⟨le_of_eq h, le_of_eq h.symm⟩
  · rw [if_neg hab, if_neg (fun e => hab e.symm)]
    constructor
    · intro h
      exact absurd (h.1.trans h.2.symm) hab
    · intro h
      exact absurd h.1 hab

theorem resultLess_good_first (t : Thresholds) (a b : Result)
    (ha : isProxyGood t a = true) (hb : isProxyGood t b = false) :
    resultLess t a b = true := by
  unfold resultLess
  rw [if_neg (fun e => by rw [ha, hb] at e; exact Bool.noConfusion e)]
  exact ha

/-- C9: the ranking comparator of main.go is a strict weak ordering —
irreflexive, asymmetric, transitive, with transitive incomparability — in
which every good result precedes every non-good result and, within a group
of results that agree on goodness, precedence is exactly strictly greater
download speed. -/
theorem c9_ranking_strict_weak_order (t : Thresholds) (a b c : Result) :
    resultLess t a a = false ∧
    (resultLess t a b = true → resultLess t b a = false) ∧
    (resultLess t a b = true → resultLess t b c = true → resultLess t a c = true) ∧
    (resultLess t a b = false ∧ resultLess t b a = false →
      resultLess t b c = false ∧ resultLess t c b = false →
      resultLess t a c = false ∧ resultLess t c a = false) ∧
    (isProxyGood t a = true → isProxyGood t b = false → resultLess t a b = true) ∧
    (isProxyGood t a = isProxyGood t b →
      (resultLess t a b = true ↔ b.downloadSpeed < a.downloadSpeed)) := by
  refine ⟨resultLess_irrefl t a, resultLess_asymm t a b, resultLess_trans t a b c,
    ?_, resultLess_good_first t a b, ?_⟩
  · intro h1 h2
    rw [resultLess_incomp_iff] at h1 h2 ⊢
    exact ⟨h1.1.trans h2.1, h1.2.trans h2.2⟩
  · intro hab
    unfold resultLess
    rw [if_pos hab]
    simp

theorem c9_ranking_strict_weak_order_witness :
    resultLess defaultThresholds rankGoodFast rankGoodSlow = true ∧
    resultLess defaultThresholds rankGoodSlow rankBadFastest = true := by
  have hgfast : isProxyGood defaultThresholds rankGoodFast = true := by
    simp only [isProxyGood, isProxyUsable, defaultThresholds, rankGoodFast,
      Bool.and_eq_true, Bool.or_eq_true, decide_eq_true_eq]
    norm_num
  have hgslow : isProxyGood defaultThresholds rankGoodSlow = true := by
    simp only [isProxyGood, isProxyUsable, defaultThresholds, rankGoodSlow,
      Bool.and_eq_true, Bool.or_eq_true, decide_eq_true_eq]
    norm_num
  have hgbad : isProxyGood defaultThresholds rankBadFastest = false := by
    simp [isProxyGood, isProxyUsable, rankBadFastest]
  constructor
  · exact ((c9_ranking_strict_weak_order defaultThresholds rankGoodFast rankGoodSlow
      rankGoodSlow).2.2.2.2.2 (hgfast.trans hgslow.symm)).mpr (by norm_num [rankGoodFast, rankGoodSlow])
  · exact (c9_ranking_strict_weak_order defaultThresholds rankGoodSlow rankBadFastest
      rankBadFastest).2.2.2.2.1 hgslow hgbad

/-- C2: when the primary latency probe reports 100% packet loss, testProxy
returns immediately: the Result records the latency statistics but carries
no auxiliary-connectivity, open-speed, auxiliary-download or throughput
data, and the trace holds exactly the 6 primary pings — no auxiliary probe
and no throughput probe is ever issued. -/
theorem c2_primary_loss_short_circuit (cfg : Config) (env : ProbeEnv)
    (h : (testLatency env.primaryPing).packetLoss = 100) :
    testProxy cfg env =
      ({ latency := (testLatency env.primaryPing).avgLatency
         jitter := (testLatency env.primaryPing).jitter
         packetLoss := 100
         downloadSize := 0, downloadTime := 0, downloadSpeed := 0
         uploadSize := 0, uploadTime := 0, uploadSpeed := 0
         extraURLConnectivity := false, extraURLOpenSpeed := 0, extraDownloadSpeed := 0 },
       (List.finRange 6).map (fun i => ProbeEvent.primaryPing i.val)) := by
  simp [testProxy, h]

theorem c2_primary_loss_short_circuit_witness :
    (testLatency envAllPrimaryFail.primaryPing).packetLoss = 100 ∧
    (testProxy cfgWithExtras envAllPrimaryFail).2 =
      (List.finRange 6).map (fun i => ProbeEvent.primaryPing i.val) := by
  have h : (testLatency envAllPrimaryFail.primaryPing).packetLoss = 100 := by
    have hform := calculateLatencyStats_packetLoss
      ((List.finRange 6).filterMap envAllPrimaryFail.primaryPing)
      ((List.finRange 6).countP (fun i => (envAllPrimaryFail.primaryPing i).isNone))
    unfold testLatency
    rw [hform]
    norm_num [envAllPrimaryFail, List.finRange, List.countP, List.countP.go]
  exact ⟨h, congrArg Prod.snd (c2_primary_loss_short_circuit cfgWithExtras envAllPrimaryFail h)⟩

/-- C10: after `New`, Concurrent is at least 1 (in particular non-zero, so
the per-chunk size divisions in testProxy have a non-zero divisor) and
DownloadSize and UploadSize are strictly positive; non-positive inputs are
replaced by the defaults 1, 100 MiB and 10 MiB. -/
theorem c10_new_clamps_config (config : Config) :
    1 ≤ (New config).concurrent ∧
    0 < (New config).downloadSize ∧
    0 < (New config).uploadSize ∧
    (New config).concurrent ≠ 0 ∧
    (config.concurrent ≤ 0 → (New config).concurrent = 1) ∧
    (config.downloadSize ≤ 0 → (New config).downloadSize = 100 * 1024 * 1024) ∧
    (config.uploadSize ≤ 0 → (New config).uploadSize = 10 * 1024 * 1024) := by
  unfold New
  refine ⟨?_, ?_, ?_, ?_, ?_, ?_, ?_⟩ <;> simp only <;> split_ifs <;> omega

theorem c10_new_clamps_config_witness :
    1 ≤ (New { cfgWithExtras with concurrent := 0, downloadSize := -1, uploadSize := 0 }).concurrent ∧
    (New { cfgWithExtras with concurrent := 0, downloadSize := -1, uploadSize := 0 }).concurrent = 1 ∧
    (New { cfgWithExtras with concurrent := 0, downloadSize := -1, uploadSize := 0 }).downloadSize = 100 * 1024 * 1024 ∧
    (New { cfgWithExtras with concurrent := 0, downloadSize := -1, uploadSize := 0 }).uploadSize = 10 * 1024 * 1024 := by
  have h := c10_new_clamps_config { cfgWithExtras with concurrent := 0, downloadSize := -1, uploadSize := 0 }
  exact ⟨h.1, h.2.2.2.2.1 (by decide), h.2.2.2.2.2.1 (by decide), h.2.2.2.2.2.2 (by decide)⟩

theorem existConnectivityProblem_cons (x : String × latencyResult)
    (m : List (String × latencyResult)) (h : existConnectivityProblem m = true) :
    existConnectivityProblem (x :: m) = true := by
  unfold existConnectivityProblem at h ⊢
  by_cases hm : m.isEmpty
  · rw [if_pos hm] at h
    exact absurd h (by simp)
  · rw [if_neg hm] at h
    rw [List.isEmpty_cons, if_neg (by simp)]
    simp [List.any_cons, h]

/-- When the auxiliary URL at (absolute) position idx + k is the first one
from idx on whose statistics show 100% packet loss, the per-URL loop started
at idx returns no open-speed totals, its latency-result map reports a
connectivity problem, and every request it issued is a ping of a URL at
position at most idx + k. -/
theorem extraLoop_shortCircuit (env : ProbeEnv) :
    ∀ (urls : List String) (idx k : ℕ), k < urls.length →
      (auxStats (env.extraPing (idx + k))).packetLoss = 100 →
      (∀ j, j < k → (auxStats (env.extraPing (idx + j))).packetLoss ≠ 100) →
      (extraLoop env urls idx).2.1 = none ∧
      existConnectivityProblem (extraLoop env urls idx).1 = true ∧
      (∀ e ∈ (extraLoop env urls idx).2.2,
        ∃ j u i, j ≤ idx + k ∧ e = ProbeEvent.auxPing j u i) := by
  intro urls
  induction urls with
  | nil =>
    intro idx k hk
    simp at hk
  | cons u rest ih =>
    intro idx k hk hfail hbefore
    cases k with
    | zero =>
      have hs : (auxStats (env.extraPing idx)).packetLoss = 100 := by
        simpa using hfail
      have hred : extraLoop env (u :: rest) idx =
          ([(u, auxStats (env.extraPing idx))], none,
           (List.finRange 6).map (fun i => ProbeEvent.auxPing idx u i.val)) := by
        simp [extraLoop, hs]
      rw [hred]
      refine ⟨rfl, ?_, ?_⟩
      · simp [existConnectivityProblem, hs]
      · intro e he
        simp only [List.mem_map] at he
        obtain ⟨i, _, rfl⟩ := he
        exact ⟨idx, u, i.val, Nat.le_add_right idx 0, rfl⟩
    | succ k' =>
      have hsnot : ¬ (auxStats (env.extraPing idx)).packetLoss = 100 := by
        have h0 := hbefore 0 (Nat.succ_pos k')
        simpa using h0
      have hfail' : (auxStats (env.extraPing ((idx + 1) + k'))).packetLoss = 100 := by
        have harith : (idx + 1) + k' = idx + (k' + 1) := by omega
        rw [harith]
        exact hfail
      have hbefore' : ∀ j, j < k' →
          (auxStats (env.extraPing ((idx + 1) + j))).packetLoss ≠ 100 := by
        intro j hj
        have harith : (idx + 1) + j = idx + (j + 1) := by omega
        rw [harith]
        exact hbefore (j + 1) (by omega)
      have hk' : k' < rest.length := by
        simp only [List.length_cons] at hk
        omega
      obtain ⟨h1, h2, h3⟩ := ih (idx + 1) k' hk' hfail' hbefore'
      have hred : extraLoop env (u :: rest) idx =
          ((u, auxStats (env.extraPing idx)) :: (extraLoop env rest (idx + 1)).1,
           (extraLoop env rest (idx + 1)).2.1.map (fun tot =>
             (auxBytes (env.extraPing idx) + tot.1,
              auxDuration (env.extraPing idx) + tot.2)),
           (List.finRange 6).map (fun i => ProbeEvent.auxPing idx u i.val) ++
             (extraLoop env rest (idx + 1)).2.2) := by
        simp [extraLoop, hsnot]
      rw [hred]
      refine ⟨?_, ?_, ?_⟩
      · simp [h1]
      · exact existConnectivityProblem_cons _ _ h2
      · intro e he
        rcases List.mem_append.mp he with hL | hR
        · simp only [List.mem_map] at hL
          obtain ⟨i, _, rfl⟩ := hL
          exact ⟨idx, u, i.val, by omega, rfl⟩
        · obtain ⟨j, u', i', hle, rfl⟩ := h3 e hR
          exact ⟨j, u', i', by omega, rfl⟩

/-- C3: if the primary latency probe did not fail outright and some
auxiliary must-reach URL (the first failing one sitting at list position k)
reports 100% packet loss, then the Result has ExtraURLConnectivity false, no
URL after position k receives any probe request, the auxiliary download
probe is never issued, and neither the aggregate open speed nor the
auxiliary download speed is measured — both stay zero. -/
theorem c3_aux_short_circuit (cfg : Config) (env : ProbeEnv) (k : ℕ)
    (hprim : (testLatency env.primaryPing).packetLoss ≠ 100)
    (hk : k < cfg.extraConnectURL.length)
    (hfail : (auxStats (env.extraPing k)).packetLoss = 100)
    (hbefore : ∀ j, j < k → (auxStats (env.extraPing j)).packetLoss ≠ 100) :
    (testProxy cfg env).1.extraURLConnectivity = false ∧
    (testProxy cfg env).1.extraURLOpenSpeed = 0 ∧
    (testProxy cfg env).1.extraDownloadSpeed = 0 ∧
    (∀ idx u i, ProbeEvent.auxPing idx u i ∈ (testProxy cfg env).2 → idx ≤ k) ∧
    (∀ u, ProbeEvent.auxDownload u ∉ (testProxy cfg env).2) := by
  obtain ⟨hnone, hexist, hev⟩ := extraLoop_shortCircuit env cfg.extraConnectURL 0 k hk
    (by rw [Nat.zero_add]; exact hfail)
    (by intro j hj; rw [Nat.zero_add]; exact hbefore j hj)
  have hex : testExtraLatencyAndSpeed cfg env =
      ((extraLoop env cfg.extraConnectURL 0).1, none, none,
       (extraLoop env cfg.extraConnectURL 0).2.2) := by
    unfold testExtraLatencyAndSpeed
    simp only [hnone]
  have hTP : testProxy cfg env =
      ({ latency := (testLatency env.primaryPing).avgLatency
         jitter := (testLatency env.primaryPing).jitter
         packetLoss := (testLatency env.primaryPing).packetLoss
         downloadSize := 0, downloadTime := 0, downloadSpeed := 0
         uploadSize := 0, uploadTime := 0, uploadSpeed := 0
         extraURLConnectivity := false, extraURLOpenSpeed := 0, extraDownloadSpeed := 0 },
       (List.finRange 6).map (fun i => ProbeEvent.primaryPing i.val) ++
         (extraLoop env cfg.extraConnectURL 0).2.2) := by
    simp [testProxy, hprim, hex, hexist]
  rw [hTP]
  refine ⟨rfl, rfl, rfl, ?_, ?_⟩
  · intro idx u i hmem
    rcases List.mem_append.mp hmem with hL | hR
    · simp at hL
    · obtain ⟨j, u', i', hle, he⟩ := hev _ hR
      simp only [ProbeEvent.auxPing.injEq] at he
      omega
  · intro u hmem
    rcases List.mem_append.mp hmem with hL | hR
    · simp at hL
    · obtain ⟨j, u', i', _, he⟩ := hev _ hR
      exact ProbeEvent.noConfusion he

theorem c3_aux_short_circuit_witness :
    (testProxy cfgWithExtras envSecondAuxDead).1.extraURLConnectivity = false ∧
    (testProxy cfgWithExtras envSecondAuxDead).1.extraURLOpenSpeed = 0 ∧
    (testProxy cfgWithExtras envSecondAuxDead).1.extraDownloadSpeed = 0 ∧
    ProbeEvent.auxPing 2 "https://c.example" 0 ∉ (testProxy cfgWithExtras envSecondAuxDead).2 ∧
    ProbeEvent.auxDownload "https://drive.example/file" ∉ (testProxy cfgWithExtras envSecondAuxDead).2 := by
  have hprim : (testLatency envSecondAuxDead.primaryPing).packetLoss ≠ 100 := by
    unfold testLatency
    rw [calculateLatencyStats_packetLoss]
    norm_num [envSecondAuxDead, List.finRange, List.countP, List.countP.go]
  have hfail : (auxStats (envSecondAuxDead.extraPing 1)).packetLoss = 100 := by
    unfold auxStats
    rw [calculateLatencyStats_packetLoss]
    norm_num [auxFailed, envSecondAuxDead, List.finRange, List.countP, List.countP.go]
  have hbefore : ∀ j, j < 1 → (auxStats (envSecondAuxDead.extraPing j)).packetLoss ≠ 100 := by
    intro j hj
    have hj0 : j = 0 := by omega
    subst hj0
    unfold auxStats
    rw [calculateLatencyStats_packetLoss]
    norm_num [auxFailed, envSecondAuxDead, List.finRange, List.countP, List.countP.go]
  have h := c3_aux_short_circuit cfgWithExtras envSecondAuxDead 1 hprim (by decide) hfail hbefore
  exact ⟨h.1, h.2.1, h.2.2.1,
    fun hmem => absurd (h.2.2.2.1 2 "https://c.example" 0 hmem) (by decide),
    h.2.2.2.2 "https://drive.example/file"⟩

end ClashSpeedtest
